import Mathlib

/-!
Verification of the GDD (Growing Degree Day) crop-phenology web application.

The repository's single source file `app.py` contains the Dash UI shell, the
`build_planning_chart` plan-mode chart builder (daily/cumulative GDD columns
and per-stage crossing dates), the `compute_gdd` callback (mode validation,
weather fetching policy, empty-series handling) and `fetch_climate_temp`
(climate-projection parsing with null substitution).  The core calculator
functions (`compute_daily_gdd`, `determine_growing_stage`, `CropSeason`) are
imported from a `project` module that is not part of this repository's source
tree; those are modelled from the specification.

Temperatures and GDD values are embedded as rationals (ℚ); calendar dates as
integers (proleptic-Gregorian ordinals, matching Python's `date.toordinal`).
-/

namespace GDD

/-- One row of a weather series: `date` (ordinal), `tmin`, `tmax` (°C).
Mirrors the `(date, tmin, tmax)` DataFrame rows consumed by `app.py`. -/
structure WeatherRow where
  date : ℤ
  tmin : ℚ
  tmax : ℚ
  deriving DecidableEq, Repr

/-- Ordered per-stage cumulative-GDD thresholds, the four canonical stages of
`crop_params["stages"]` in `app.py`. -/
structure Stages where
  initial : ℚ
  development : ℚ
  mid_season : ℚ
  harvest : ℚ
  deriving DecidableEq, Repr

/-- Validity invariant on stage thresholds (spec §3): all positive and
strictly increasing in canonical order. -/
def Stages.Valid (s : Stages) : Prop :=
  0 < s.initial ∧ s.initial < s.development ∧
    s.development < s.mid_season ∧ s.mid_season < s.harvest

instance (s : Stages) : Decidable s.Valid := by
  unfold Stages.Valid; infer_instance

/-- Crop parameters as read from the crop catalog by `app.py`
(`crop_params["t_base"]`, `crop_params["t_upper"]`, `crop_params["stages"]`). -/
structure CropParams where
  t_base : ℚ
  t_upper : ℚ
  stages : Stages
  deriving DecidableEq, Repr

/-- Modelled from the spec: `compute_daily_gdd` is imported in `app.py` from
the `project` module, which is not in the repository source tree.  Spec §4.1
gives the precise formula: `adjusted_max = min(tmax, t_upper)`;
`adjusted_min = max(tmin, t_base)`;
`daily = ((adjusted_max + adjusted_min) / 2) - t_base`; result floored at 0. -/
def compute_daily_gdd (tmin tmax t_base t_upper : ℚ) : ℚ :=
  let adjusted_max := min tmax t_upper
  let adjusted_min := max tmin t_base
  max 0 ((adjusted_max + adjusted_min) / 2 - t_base)

/-- The `daily_gdd` column of `build_planning_chart` (`app.py` lines 200-203):
`compute_daily_gdd` applied row-wise. -/
def dailyGdds (ws : List WeatherRow) (t_base t_upper : ℚ) : List ℚ :=
  ws.map (fun row => compute_daily_gdd row.tmin row.tmax t_base t_upper)

/-- Running-sum helper for pandas `.cumsum()`: `acc` is the sum of all
elements already consumed. -/
def cumsumAux (acc : ℚ) : List ℚ → List ℚ
  | [] => []
  | x :: xs => (acc + x) :: cumsumAux (acc + x) xs

/-- pandas `Series.cumsum()` as used on the `daily_gdd` column
(`app.py` line 204). -/
def cumsum (l : List ℚ) : List ℚ := cumsumAux 0 l

/-- The `cumulative_gdd` column of `build_planning_chart`
(`app.py` lines 200-204). -/
def cumulative_gdd (ws : List WeatherRow) (t_base t_upper : ℚ) : List ℚ :=
  cumsum (dailyGdds ws t_base t_upper)

/-- Per-stage crossing-date lookup of `build_planning_chart`
(`app.py` lines 231-238): filter the rows whose cumulative GDD has reached
the threshold and take the date of the first one; `none` when the filtered
frame is empty. -/
def stageDateFor (rows : List (ℤ × ℚ)) (threshold : ℚ) : Option ℤ :=
  ((rows.filter (fun p => threshold ≤ p.2)).head?).map Prod.fst

/-- Result-panel rendering of a stage's projected date in plan mode
(`app.py` lines 826-833): a reached stage shows its estimated date and the
day count since planting; an unreached one shows the distinct
"beyond projection range" text. -/
inductive StageReport where
  | onDate (est : ℤ) (daysFromPlant : ℤ)
  | beyondRange
  deriving DecidableEq, Repr

/-- `app.py` lines 826-833: `stage_name in stage_dates` selects the date
rendering, otherwise "beyond projection range". -/
def renderStage (stage_date : Option ℤ) (planting_date : ℤ) : StageReport :=
  match stage_date with
  | some est => .onDate est (est - planting_date)
  | none => .beyondRange

/-- Modelled from the spec: `determine_growing_stage` (the
GrowthStageClassifier) is imported in `app.py` from the missing `project`
module.  Spec §4.2: the current stage is the earliest stage whose threshold
is ≥ the cumulative value, walking thresholds ascending; past the harvest
threshold the stage stays "harvest" with progress capped at 100%;
`stage_progress` is the fraction from the previous stage's threshold (0 for
the first stage) to the current one; `overall_progress` is
`min(cumulative_gdd / harvest_threshold, 1.0)`. -/
def classify (cum : ℚ) (s : Stages) : String × ℚ × ℚ :=
  if cum ≤ s.initial then
    ("initial", cum / s.initial, min (cum / s.harvest) 1)
  else if cum ≤ s.development then
    ("development", (cum - s.initial) / (s.development - s.initial),
      min (cum / s.harvest) 1)
  else if cum ≤ s.mid_season then
    ("mid_season", (cum - s.development) / (s.mid_season - s.development),
      min (cum / s.harvest) 1)
  else if cum ≤ s.harvest then
    ("harvest", (cum - s.mid_season) / (s.harvest - s.mid_season),
      min (cum / s.harvest) 1)
  else
    ("harvest", 1, min (cum / s.harvest) 1)

/-- The stage thresholds in their canonical ascending order, as `app.py`
iterates `stages.items()`. -/
def stageList (s : Stages) : List (String × ℚ) :=
  [("initial", s.initial), ("development", s.development),
   ("mid_season", s.mid_season), ("harvest", s.harvest)]

/-- Position of a stage name in the canonical order
`initial < development < mid_season < harvest`. -/
def stageIndex (n : String) : ℕ :=
  if n = "initial" then 0
  else if n = "development" then 1
  else if n = "mid_season" then 2
  else if n = "harvest" then 3
  else 4

/-- Modelled from the spec: `CropSeason.compute_gdd_series` and
`summary_today` live in the missing `project` module.  Spec §4.3: the series
is computed once in date order with a running sum, and the summary reports
the last day's cumulative value classified by the stage thresholds.  Returns
`(cumulative_gdd, stage, stage_progress, overall_progress)`. -/
def summary_today (ws : List WeatherRow) (params : CropParams) : ℚ × String × ℚ × ℚ :=
  let cum := cumulative_gdd ws params.t_base params.t_upper
  let c := cum.getD (cum.length - 1) 0
  let cls := classify c params.stages
  (c, cls.1, cls.2.1, cls.2.2)

/-- Python `int()` applied to a rational: truncation toward zero
(`app.py` line 798 applies `int` to `harvest_gdd / max_daily`). -/
def pyInt (q : ℚ) : ℤ := Int.tdiv q.num q.den

/-- Proleptic-Gregorian ordinal of 2050-12-31, the absolute ceiling that
plan mode imposes on the projection end date (`app.py` line 804). -/
def DATE_CEILING : ℤ := 748747

/-- Plan-mode projected-weather horizon (`app.py` lines 795-801):
`int(harvest_gdd / max_daily) + 60` days when `max_daily > 0`, else 365,
then capped at 365. -/
def estimated_days (params : CropParams) : ℤ :=
  let harvest_gdd := params.stages.harvest
  let max_daily := params.t_upper - params.t_base
  let e := if 0 < max_daily then pyInt (harvest_gdd / max_daily) + 60 else 365
  min e 365

/-- Plan-mode projection end date (`app.py` lines 803-804): planting date
plus the estimated day count, capped at 2050-12-31. -/
def plan_end_date (planting_date : ℤ) (params : CropParams) : ℤ :=
  let e := planting_date + estimated_days params
  if DATE_CEILING < e then DATE_CEILING else e

/-- The two values of the `radio-mode` control in `app.py`. -/
inductive Mode where
  | check
  | plan
  deriving DecidableEq, Repr

/-- Outcome of the `compute_gdd` callback, restricted to what reaches the
results panel: an error message string, a check-mode stage summary
`(cumulative_gdd, stage, stage_progress, overall_progress)`, or a plan-mode
tuple of per-stage projected crossing dates. -/
inductive ComputeResult where
  | error (msg : String)
  | checkResult (summary : ℚ × String × ℚ × ℚ)
  | planResult (stage_dates : Option ℤ × Option ℤ × Option ℤ × Option ℤ)
  deriving DecidableEq, Repr

/-- Plan-mode per-stage crossing dates extracted from a fetched climate
series, as `build_planning_chart` computes them (`app.py` lines 199-241):
daily and cumulative GDD columns on the series, then for each stage the
date of the first row whose cumulative value reaches the threshold. -/
def planStageDates (ws : List WeatherRow) (params : CropParams) :
    Option ℤ × Option ℤ × Option ℤ × Option ℤ :=
  let dated := List.zip (ws.map WeatherRow.date)
    (cumulative_gdd ws params.t_base params.t_upper)
  (stageDateFor dated params.stages.initial,
   stageDateFor dated params.stages.development,
   stageDateFor dated params.stages.mid_season,
   stageDateFor dated params.stages.harvest)

/-- The `compute_gdd` callback of `app.py` (lines 699-849), restricted to
the mode branch (location/crop/date-parse guards precede it and are out of
scope here).  `fetchDaily` and `fetchClimate` stand for the external weather
providers: the callback decides the date range it fetches.  Check mode
(lines 737-785): reject a future planting date, fetch history from planting
to today, reject an empty frame, else summarise.  Plan mode (lines 788-849):
reject a non-future planting date, fetch a climate projection over the
estimated horizon, reject an empty frame, else report stage dates. -/
def compute_gdd (mode : Mode) (planting_date today : ℤ)
    (fetchDaily fetchClimate : ℤ → ℤ → List WeatherRow)
    (params : CropParams) : ComputeResult :=
  match mode with
  | .check =>
    if today < planting_date then
      .error "Check mode requires a past planting date."
    else
      let weather := fetchDaily planting_date today
      if weather.isEmpty then
        .error "No weather data available for this location and date range."
      else
        .checkResult (summary_today weather params)
  | .plan =>
    if planting_date ≤ today then
      .error "Plan mode requires a future planting date."
    else
      let end_date := plan_end_date planting_date params
      let weather := fetchClimate planting_date end_date
      if weather.isEmpty then
        .error "No climate data available for this location and date range."
      else
        .planResult (planStageDates weather params)

/-- One temperature cell of the climate-API JSON response: present (`some`)
or null (`none`). -/
def parseTemp : Option ℚ → ℚ
  | some t => t
  | none => 0

/-- Row assembly of `fetch_climate_temp` (`app.py` lines 91-95): the three
`daily` arrays zipped into `(date, tmin, tmax)` rows, with
`float(t) if t is not None else 0.0` applied to each temperature cell. -/
def buildClimateRows : List ℤ → List (Option ℚ) → List (Option ℚ) → List WeatherRow
  | d :: ds, mn :: mns, mx :: mxs =>
    ⟨d, parseTemp mn, parseTemp mx⟩ :: buildClimateRows ds mns mxs
  | _, _, _ => []

/-- `fetch_climate_temp` (`app.py` lines 83-97) after the HTTP layer: from
the parsed `daily` arrays, an empty `time` array yields an empty frame,
otherwise the zipped rows with nulls substituted by `0.0`. -/
def fetch_climate_temp (dates : List ℤ) (tmins tmaxs : List (Option ℚ)) :
    List WeatherRow :=
  if dates.isEmpty then [] else buildClimateRows dates tmins tmaxs

/-- A pandas DataFrame as `build_planning_chart` sees it: the input
`(date, tmin, tmax)` rows plus the two derived columns it may attach. -/
structure DataFrame where
  rows : List WeatherRow
  daily_gdd_col : Option (List ℚ)
  cumulative_gdd_col : Option (List ℚ)
  deriving DecidableEq, Repr

/-- DataFrames are heap objects in Python; a heap is a store of frames and a
reference is an index into it. -/
abbrev Heap := List DataFrame

/-- Dereference a frame (out-of-range reads give an inert empty frame;
theorems about the heap quantify over valid references). -/
def heapGet (h : Heap) (r : ℕ) : DataFrame :=
  (h.get? r).getD ⟨[], none, none⟩

/-- `weather_df.copy()` (`app.py` line 199): allocate a fresh frame with the
same value and return its reference. -/
def dfCopy (h : Heap) (r : ℕ) : Heap × ℕ :=
  (h ++ [heapGet h r], h.length)

/-- `weather_df["daily_gdd"] = ...` (`app.py` lines 200-203): in-place
column assignment on the referenced frame. -/
def setDailyCol (h : Heap) (r : ℕ) (col : List ℚ) : Heap :=
  h.set r { heapGet h r with daily_gdd_col := some col }

/-- `weather_df["cumulative_gdd"] = ...` (`app.py` line 204): in-place
column assignment on the referenced frame. -/
def setCumCol (h : Heap) (r : ℕ) (col : List ℚ) : Heap :=
  h.set r { heapGet h r with cumulative_gdd_col := some col }

/-- `build_planning_chart` (`app.py` lines 191-260) on the heap: copy the
caller's frame, attach the `daily_gdd` and `cumulative_gdd` columns to the
copy, and compute the per-stage crossing dates from the copy.  Returns the
final heap, the copy's reference, and the stage dates. -/
def build_planning_chart (h : Heap) (r : ℕ) (params : CropParams) :
    Heap × ℕ × (Option ℤ × Option ℤ × Option ℤ × Option ℤ) :=
  let hr := dfCopy h r
  let h1 := hr.1
  let r1 := hr.2
  let rows := (heapGet h1 r1).rows
  let daily := dailyGdds rows params.t_base params.t_upper
  let h2 := setDailyCol h1 r1 daily
  let cum := cumsum daily
  let h3 := setCumCol h2 r1 cum
  let dated := List.zip (rows.map WeatherRow.date) cum
  (h3, r1,
   (stageDateFor dated params.stages.initial,
    stageDateFor dated params.stages.development,
    stageDateFor dated params.stages.mid_season,
    stageDateFor dated params.stages.harvest))

/-! Helper lemmas shared by the claim theorems. -/

theorem cumsumAux_length (a : ℚ) (l : List ℚ) :
    (cumsumAux a l).length = l.length := by
  induction l generalizing a with
  | nil => rfl
  | cons x xs ih => simp [cumsumAux, ih]

theorem cumsumAux_getD_succ (l : List ℚ) :
    ∀ (a : ℚ) (i : ℕ), i + 1 < l.length →
      (cumsumAux a l).getD (i + 1) 0 =
        (cumsumAux a l).getD i 0 + l.getD (i + 1) 0 := by
  induction l with
  | nil => intro a i h; simp at h
  | cons x xs ih =>
    intro a i h
    cases i with
    | zero =>
      cases xs with
      | nil => simp at h
      | cons y ys => simp [cumsumAux, List.getD]
    | succ j =>
      have hj : j + 1 < xs.length := by simpa using h
      simpa [cumsumAux, List.getD] using ih (a + x) j hj

theorem dailyGdds_nonneg (ws : List WeatherRow) (b u : ℚ) :
    ∀ g ∈ dailyGdds ws b u, 0 ≤ g := by
  intro g hg
  simp only [dailyGdds, List.mem_map] at hg
  obtain ⟨row, _, rfl⟩ := hg
  exact le_max_left 0 _

theorem dailyGdds_getD_nonneg (ws : List WeatherRow) (b u : ℚ) (i : ℕ) :
    0 ≤ (dailyGdds ws b u).getD i 0 := by
  by_cases h : i < (dailyGdds ws b u).length
  · rw [List.getD_eq_getElem _ _ h]
    exact dailyGdds_nonneg ws b u _ (List.getElem_mem h)
  · rw [List.getD_eq_default _ _ (le_of_not_lt h)]

theorem head_filter_eq_find {α : Type} (p : α → Bool) (l : List α) :
    (l.filter p).head? = l.find? p := by
  induction l with
  | nil => rfl
  | cons x xs ih =>
    by_cases hx : p x
    · simp [List.filter, List.find?, hx]
    · simp only [List.filter, List.find?, Bool.not_eq_true] at hx ⊢
      rw [hx]
      exact ih

theorem stageDateFor_some (t : ℚ) (d : ℤ) :
    ∀ (rows : List (ℤ × ℚ)), stageDateFor rows t = some d →
      ∃ pre p suf, rows = pre ++ p :: suf ∧ p.1 = d ∧ t ≤ p.2 ∧
        ∀ q ∈ pre, q.2 < t := by
  intro rows
  induction rows with
  | nil => intro h; simp [stageDateFor] at h
  | cons r rest ih =>
    intro h
    by_cases hr : t ≤ r.2
    · refine ⟨[], r, rest, rfl, ?_, hr, by simp⟩
      simp [stageDateFor, List.filter, decide_eq_true hr] at h
      exact h
    · have hr' : decide (t ≤ r.2) = false := decide_eq_false hr
      have hrec : stageDateFor rest t = some d := by
        simpa [stageDateFor, List.filter, hr'] using h
      obtain ⟨pre, p, suf, heq, hd, hp, hpre⟩ := ih hrec
      refine ⟨r :: pre, p, suf, by simp [heq], hd, hp, ?_⟩
      intro q hq
      rcases List.mem_cons.mp hq with hq | hq
      · exact hq ▸ lt_of_not_le hr
      · exact hpre q hq

theorem stageDateFor_none (t : ℚ) (rows : List (ℤ × ℚ))
    (h : ∀ p ∈ rows, p.2 < t) : stageDateFor rows t = none := by
  have : rows.filter (fun p => decide (t ≤ p.2)) = [] := by
    rw [List.filter_eq_nil_iff]
    intro p hp
    simp only [decide_eq_true_eq]
    exact not_le_of_lt (h p hp)
  simp [stageDateFor, this]

/-! Claim theorems. -/

/-- C1: every day's GDD contribution is
`max(0, ((min(tmax, t_upper) + max(tmin, t_base)) / 2) - t_base)`, and with
`t_base = 10`, `t_upper = 30`, five days of `(tmin = 15, tmax = 25)` yield
the cumulative series `[10, 20, 30, 40, 50]`. -/
theorem daily_gdd_formula_and_series :
    (∀ tmin tmax t_base t_upper : ℚ,
      compute_daily_gdd tmin tmax t_base t_upper =
        max 0 ((min tmax t_upper + max tmin t_base) / 2 - t_base)) ∧
    cumulative_gdd
        [⟨1, 15, 25⟩, ⟨2, 15, 25⟩, ⟨3, 15, 25⟩, ⟨4, 15, 25⟩, ⟨5, 15, 25⟩]
        10 30 = [10, 20, 30, 40, 50] := by
  constructor
  · intro tmin tmax t_base t_upper
    rfl
  · norm_num [cumulative_gdd, dailyGdds, cumsum, cumsumAux, compute_daily_gdd]

/-- C2: in plan mode the estimator returns, for a stage threshold, the date
of the first row (in series order) whose cumulative GDD is ≥ the threshold;
a threshold no row reaches yields `none`, which renders as the distinct
`beyondRange` report, never as any date. -/
theorem plan_stage_date_first_crossing :
    ∀ (rows : List (ℤ × ℚ)) (t : ℚ) (d pl : ℤ),
      (stageDateFor rows t = some d →
        ∃ pre p suf, rows = pre ++ p :: suf ∧ p.1 = d ∧ t ≤ p.2 ∧
          ∀ q ∈ pre, q.2 < t) ∧
      ((∀ p ∈ rows, p.2 < t) → stageDateFor rows t = none) ∧
      renderStage none pl = StageReport.beyondRange ∧
      (∀ est dfp, StageReport.beyondRange ≠ StageReport.onDate est dfp) := by
  intro rows t d pl
  refine ⟨stageDateFor_some t d rows, stageDateFor_none t rows, rfl, ?_⟩
  intro est dfp h
  exact StageReport.noConfusion h

/-- Witness for C2 at concrete inputs: threshold 10 is first crossed by the
second row of `[(7, 3), (8, 12)]`, and is never crossed in `[(5, 3)]`. -/
theorem plan_stage_date_first_crossing_witness :
    (∃ pre p suf,
        ([((7 : ℤ), (3 : ℚ)), (8, 12)] : List (ℤ × ℚ)) = pre ++ p :: suf ∧
        p.1 = 8 ∧ (10 : ℚ) ≤ p.2 ∧ ∀ q ∈ pre, q.2 < 10) ∧
      stageDateFor [((5 : ℤ), (3 : ℚ))] 10 = none := by
  constructor
  · exact (plan_stage_date_first_crossing [(7, 3), (8, 12)] 10 8 0).1
      (by norm_num [stageDateFor, List.filter])
  · exact (plan_stage_date_first_crossing [(5, 3)] 10 8 0).2.1
      (by norm_num)

/-- C3: for every weather series, every daily GDD value is non-negative, and
the cumulative series satisfies
`cumulative_gdd[i+1] = cumulative_gdd[i] + daily_gdd[i+1]`, hence is
non-decreasing. -/
theorem cumulative_gdd_monotone_recurrence :
    ∀ (ws : List WeatherRow) (b u : ℚ),
      (∀ g ∈ dailyGdds ws b u, 0 ≤ g) ∧
      (∀ i, i + 1 < (cumulative_gdd ws b u).length →
        (cumulative_gdd ws b u).getD (i + 1) 0 =
          (cumulative_gdd ws b u).getD i 0 + (dailyGdds ws b u).getD (i + 1) 0 ∧
        (cumulative_gdd ws b u).getD i 0 ≤ (cumulative_gdd ws b u).getD (i + 1) 0) := by
  intro ws b u
  refine ⟨dailyGdds_nonneg ws b u, ?_⟩
  intro i hi
  have hlen : (cumulative_gdd ws b u).length = (dailyGdds ws b u).length :=
    cumsumAux_length 0 _
  have hrec : (cumulative_gdd ws b u).getD (i + 1) 0 =
      (cumulative_gdd ws b u).getD i 0 + (dailyGdds ws b u).getD (i + 1) 0 :=
    cumsumAux_getD_succ _ 0 i (hlen ▸ hi)
  refine ⟨hrec, ?_⟩
  rw [hrec]
  have := dailyGdds_getD_nonneg ws b u (i + 1)
  linarith

/-- Witness for C3 at a concrete series: the hypothesis `0 + 1 < length` is
discharged on a two-day series, giving the recurrence and monotonicity at
index 0. -/
theorem cumulative_gdd_monotone_recurrence_witness :
    (cumulative_gdd [⟨1, 15, 25⟩, ⟨2, 12, 20⟩] 10 30).getD 1 0 =
      (cumulative_gdd [⟨1, 15, 25⟩, ⟨2, 12, 20⟩] 10 30).getD 0 0 +
        (dailyGdds [⟨1, 15, 25⟩, ⟨2, 12, 20⟩] 10 30).getD 1 0 ∧
    (cumulative_gdd [⟨1, 15, 25⟩, ⟨2, 12, 20⟩] 10 30).getD 0 0 ≤
      (cumulative_gdd [⟨1, 15, 25⟩, ⟨2, 12, 20⟩] 10 30).getD 1 0 :=
  (cumulative_gdd_monotone_recurrence [⟨1, 15, 25⟩, ⟨2, 12, 20⟩] 10 30).2 0
    (by norm_num [cumulative_gdd, dailyGdds, cumsum, cumsumAux])

/-- C4: for a non-negative cumulative value and valid thresholds, the
classifier's stage is the earliest stage whose threshold is ≥ the cumulative
value (defaulting to terminal "harvest" with progress capped at 1 once the
harvest threshold is exceeded), `overall_progress` is
`min(cumulative_gdd / harvest_threshold, 1)`, and at stages
`{50, 150, 400, 600}` with cumulative 50 the result is stage "initial" at
full stage progress with overall progress `50/600`. -/
theorem classify_earliest_stage_spec :
    ∀ (cum : ℚ) (s : Stages), 0 ≤ cum → s.Valid →
      (classify cum s).1 =
        ((((stageList s).find? (fun p => decide (cum ≤ p.2))).map
          Prod.fst).getD "harvest") ∧
      (classify cum s).2.2 = min (cum / s.harvest) 1 ∧
      (s.harvest < cum →
        (classify cum s).1 = "harvest" ∧ (classify cum s).2.1 = 1) ∧
      classify 50 ⟨50, 150, 400, 600⟩ = ("initial", 1, 50 / 600) := by
  intro cum s _ hs
  obtain ⟨h1, h2, h3, h4⟩ := hs
  refine ⟨?_, ?_, ?_, by norm_num [classify]⟩
  · unfold classify stageList
    split_ifs with hA hB hC hD
    · simp [List.find?, decide_eq_true hA]
    · simp [List.find?, decide_eq_false hA, decide_eq_true hB]
    · simp [List.find?, decide_eq_false hA, decide_eq_false hB,
        decide_eq_true hC]
    · simp [List.find?, decide_eq_false hA, decide_eq_false hB,
        decide_eq_false hC, decide_eq_true hD]
    · simp [List.find?, decide_eq_false hA, decide_eq_false hB,
        decide_eq_false hC, decide_eq_false hD]
  · unfold classify
    split_ifs <;> rfl
  · intro hcum
    unfold classify
    have hA : ¬ cum ≤ s.initial := by linarith
    have hB : ¬ cum ≤ s.development := by linarith
    have hC : ¬ cum ≤ s.mid_season := by linarith
    have hD : ¬ cum ≤ s.harvest := by linarith
    simp [hA, hB, hC, hD]

/-- Witness for C4 at cumulative 50 and stages `{50, 150, 400, 600}`: the
hypotheses `0 ≤ 50` and threshold validity are discharged concretely. -/
theorem classify_earliest_stage_spec_witness :
    (classify 50 ⟨50, 150, 400, 600⟩).1 =
        ((((stageList ⟨50, 150, 400, 600⟩).find?
          (fun p => decide ((50 : ℚ) ≤ p.2))).map Prod.fst).getD "harvest") ∧
      (classify 50 ⟨50, 150, 400, 600⟩).2.2 = min ((50 : ℚ) / 600) 1 := by
  have h := classify_earliest_stage_spec 50 ⟨50, 150, 400, 600⟩
    (by norm_num) (by norm_num [Stages.Valid])
  exact ⟨h.1, h.2.1⟩

/-- C7: with fixed valid thresholds, the stage index returned by the
classifier never decreases as the cumulative value strictly increases, and
"harvest" is terminal. -/
theorem classify_stage_index_monotone :
    ∀ (c₁ c₂ : ℚ) (s : Stages), s.Valid → 0 ≤ c₁ → c₁ < c₂ →
      stageIndex (classify c₁ s).1 ≤ stageIndex (classify c₂ s).1 ∧
      ((classify c₁ s).1 = "harvest" → (classify c₂ s).1 = "harvest") := by
  intro c₁ c₂ s hs _ hlt
  obtain ⟨h1, h2, h3, h4⟩ := hs
  constructor
  · unfold classify
    split_ifs with a1 a2 a3 a4 b1 b2 b3 b4 c1' c2' c3' d1 d2 e1 <;>
      simp [stageIndex] <;> linarith
  · unfold classify
    split_ifs with a1 a2 a3 a4 b1 b2 b3 b4 c1' c2' c3' d1 d2 e1 <;>
      simp_all <;> linarith

/-- Witness for C7: thresholds `{50, 150, 400, 600}` are valid, `0 ≤ 10`,
`10 < 700`; the stage index at 10 is ≤ the stage index at 700. -/
theorem classify_stage_index_monotone_witness :
    stageIndex (classify 10 ⟨50, 150, 400, 600⟩).1 ≤
      stageIndex (classify 700 ⟨50, 150, 400, 600⟩).1 :=
  (classify_stage_index_monotone 10 700 ⟨50, 150, 400, 600⟩
    (by norm_num [Stages.Valid]) (by norm_num) (by norm_num)).1

/-- C5: an empty weather series makes the callback return the distinct
"no data" error message (in either mode) rather than a summary or stage
projection: an error result is never equal to a check summary or a plan
result. -/
theorem empty_series_reports_no_data :
    ∀ (pd today : ℤ) (fd fc : ℤ → ℤ → List WeatherRow) (params : CropParams),
      (pd ≤ today → fd pd today = [] →
        compute_gdd .check pd today fd fc params =
          .error "No weather data available for this location and date range.") ∧
      (today < pd → fc pd (plan_end_date pd params) = [] →
        compute_gdd .plan pd today fd fc params =
          .error "No climate data available for this location and date range.") ∧
      (∀ msg su, ComputeResult.error msg ≠ ComputeResult.checkResult su) ∧
      (∀ msg sd, ComputeResult.error msg ≠ ComputeResult.planResult sd) := by
  intro pd today fd fc params
  refine ⟨?_, ?_, ?_, ?_⟩
  · intro hle hempty
    simp [compute_gdd, not_lt.mpr hle, hempty]
  · intro hlt hempty
    simp [compute_gdd, not_le.mpr hlt, hempty]
  · intro msg su h
    exact ComputeResult.noConfusion h
  · intro msg sd h
    exact ComputeResult.noConfusion h

/-- Witness for C5: planting on day 5, today day 10 (a past planting date),
providers that return empty frames — check mode reports the "no data"
message. -/
theorem empty_series_reports_no_data_witness :
    compute_gdd .check 5 10 (fun _ _ => []) (fun _ _ => [])
        ⟨10, 30, ⟨50, 150, 400, 600⟩⟩ =
      .error "No weather data available for this location and date range." :=
  (empty_series_reports_no_data 5 10 (fun _ _ => []) (fun _ _ => [])
    ⟨10, 30, ⟨50, 150, 400, 600⟩⟩).1 (by norm_num) rfl

/-- C8: check mode rejects a planting date strictly after today with
"Check mode requires a past planting date.", plan mode rejects a planting
date on or before today with "Plan mode requires a future planting date.",
and in both rejected cases the result does not depend on either weather
provider (nothing is fetched, no GDD is computed). -/
theorem mode_date_validation :
    ∀ (pd today : ℤ) (fd fd' fc fc' : ℤ → ℤ → List WeatherRow)
      (params : CropParams),
      (today < pd →
        compute_gdd .check pd today fd fc params =
          .error "Check mode requires a past planting date.") ∧
      (pd ≤ today →
        compute_gdd .plan pd today fd fc params =
          .error "Plan mode requires a future planting date.") ∧
      (today < pd →
        compute_gdd .check pd today fd fc params =
          compute_gdd .check pd today fd' fc' params) ∧
      (pd ≤ today →
        compute_gdd .plan pd today fd fc params =
          compute_gdd .plan pd today fd' fc' params) := by
  intro pd today fd fd' fc fc' params
  refine ⟨?_, ?_, ?_, ?_⟩
  · intro h
    simp [compute_gdd, h]
  · intro h
    simp [compute_gdd, h]
  · intro h
    simp [compute_gdd, h]
  · intro h
    simp [compute_gdd, h]

/-- Witness for C8: planting day 10 is strictly after today (day 5), so
check mode rejects with the exact message; planting day 5 is on or before
today (day 10), so plan mode rejects with its exact message. -/
theorem mode_date_validation_witness :
    compute_gdd .check 10 5 (fun _ _ => [⟨1, 15, 25⟩]) (fun _ _ => [])
        ⟨10, 30, ⟨50, 150, 400, 600⟩⟩ =
      .error "Check mode requires a past planting date." ∧
    compute_gdd .plan 5 10 (fun _ _ => []) (fun _ _ => [⟨1, 15, 25⟩])
        ⟨10, 30, ⟨50, 150, 400, 600⟩⟩ =
      .error "Plan mode requires a future planting date." :=
  ⟨(mode_date_validation 10 5 (fun _ _ => [⟨1, 15, 25⟩]) (fun _ _ => [])
      (fun _ _ => []) (fun _ _ => []) ⟨10, 30, ⟨50, 150, 400, 600⟩⟩).1
      (by norm_num),
   (mode_date_validation 5 10 (fun _ _ => []) (fun _ _ => [])
      (fun _ _ => [⟨1, 15, 25⟩]) (fun _ _ => []) ⟨10, 30, ⟨50, 150, 400, 600⟩⟩).2.1
      (by norm_num)⟩

/-- C6 counterexample: the requested horizon is NOT
`harvest_threshold / (t_upper - t_base) + fixed buffer`.  Two valid crops
whose ratios differ by 600 produce the same 365-day horizon (the code also
caps the day count at 365, which the claim omits); with the code's buffer
of 60 the heuristic value 660 is not what is requested. -/
theorem plan_horizon_cap_counterexample :
    estimated_days ⟨10, 11, ⟨50, 150, 400, 600⟩⟩ =
        estimated_days ⟨10, 11, ⟨50, 150, 400, 1200⟩⟩ ∧
      (600 : ℚ) / (11 - 10) ≠ (1200 : ℚ) / (11 - 10) ∧
      Stages.Valid ⟨50, 150, 400, 600⟩ ∧
      Stages.Valid ⟨50, 150, 400, 1200⟩ ∧
      estimated_days ⟨10, 11, ⟨50, 150, 400, 600⟩⟩ ≠
        pyInt ((600 : ℚ) / (11 - 10)) + 60 := by
  refine ⟨?_, by norm_num, by norm_num [Stages.Valid],
    by norm_num [Stages.Valid], ?_⟩ <;>
    norm_num [estimated_days, pyInt]

/-- C6 amended: the plan-mode horizon is
`min(trunc(harvest_threshold / (t_upper - t_base)) + 60, 365)` days when
`t_upper > t_base` (365 days otherwise), and the projection end date is
`planting_date + horizon` capped at the absolute ceiling 2050-12-31. -/
theorem plan_horizon_capped_heuristic :
    ∀ (params : CropParams) (pd : ℤ),
      (0 < params.t_upper - params.t_base →
        estimated_days params =
          min (pyInt (params.stages.harvest / (params.t_upper - params.t_base))
            + 60) 365) ∧
      (params.t_upper - params.t_base ≤ 0 → estimated_days params = 365) ∧
      plan_end_date pd params = min (pd + estimated_days params) DATE_CEILING := by
  intro params pd
  refine ⟨?_, ?_, ?_⟩
  · intro h
    simp [estimated_days, h]
  · intro h
    simp [estimated_days, not_lt.mpr h]
  · have hd : plan_end_date pd params =
        if DATE_CEILING < pd + estimated_days params then DATE_CEILING
        else pd + estimated_days params := rfl
    rw [hd]
    split_ifs with h <;> omega

/-- Witness for C6 amended: `t_base = 10`, `t_upper = 30`, harvest 600 →
`0 < 20` holds and the horizon is `min(trunc(600/20) + 60, 365) = 90`. -/
theorem plan_horizon_capped_heuristic_witness :
    estimated_days ⟨10, 30, ⟨50, 150, 400, 600⟩⟩ =
      min (pyInt ((600 : ℚ) / (30 - 10)) + 60) 365 := by
  have h := (plan_horizon_capped_heuristic ⟨10, 30, ⟨50, 150, 400, 600⟩⟩ 0).1
    (by norm_num)
  exact h

theorem buildClimateRows_length :
    ∀ (ds : List ℤ) (mns mxs : List (Option ℚ)),
      mns.length = ds.length → mxs.length = ds.length →
      (buildClimateRows ds mns mxs).length = ds.length := by
  intro ds
  induction ds with
  | nil => intro mns mxs _ _; cases mns <;> cases mxs <;> rfl
  | cons d ds ih =>
    intro mns mxs hmn hmx
    cases mns with
    | nil => simp at hmn
    | cons mn mns' =>
      cases mxs with
      | nil => simp at hmx
      | cons mx mxs' =>
        simp only [List.length_cons, Nat.succ.injEq] at hmn hmx
        simp [buildClimateRows, ih mns' mxs' hmn hmx]

theorem buildClimateRows_getD :
    ∀ (ds : List ℤ) (mns mxs : List (Option ℚ)) (i : ℕ),
      mns.length = ds.length → mxs.length = ds.length → i < ds.length →
      (buildClimateRows ds mns mxs).getD i ⟨0, 0, 0⟩ =
        ⟨ds.getD i 0, parseTemp (mns.getD i none), parseTemp (mxs.getD i none)⟩ := by
  intro ds
  induction ds with
  | nil => intro mns mxs i _ _ hi; simp at hi
  | cons d ds ih =>
    intro mns mxs i hmn hmx hi
    cases mns with
    | nil => simp at hmn
    | cons mn mns' =>
      cases mxs with
      | nil => simp at hmx
      | cons mx mxs' =>
        simp only [List.length_cons, Nat.succ.injEq] at hmn hmx
        cases i with
        | zero => simp [buildClimateRows, List.getD]
        | succ j =>
          have hj : j < ds.length := by simpa using hi
          simpa [buildClimateRows, List.getD] using ih mns' mxs' j hmn hmx hj

/-- C9: when the climate-projection response holds a null `tmin` or `tmax`
on some day, `fetch_climate_temp` substitutes `0.0` for it: the frame keeps
one row per date (nothing dropped), row `i` carries
`parseTemp` of each optional temperature, and a null `tmin` becomes exactly
`0` degrees in the row that feeds the GDD computation. -/
theorem climate_null_temps_become_zero :
    ∀ (dates : List ℤ) (tmins tmaxs : List (Option ℚ)) (i : ℕ),
      dates ≠ [] →
      tmins.length = dates.length → tmaxs.length = dates.length →
      (fetch_climate_temp dates tmins tmaxs).length = dates.length ∧
      (i < dates.length →
        (fetch_climate_temp dates tmins tmaxs).getD i ⟨0, 0, 0⟩ =
          ⟨dates.getD i 0, parseTemp (tmins.getD i none),
            parseTemp (tmaxs.getD i none)⟩) ∧
      (i < dates.length → tmins.getD i none = none →
        ((fetch_climate_temp dates tmins tmaxs).getD i ⟨0, 0, 0⟩).tmin = 0) := by
  intro dates tmins tmaxs i hne hmn hmx
  have hfe : fetch_climate_temp dates tmins tmaxs =
      buildClimateRows dates tmins tmaxs := by
    simp [fetch_climate_temp, List.isEmpty_iff, hne]
  refine ⟨?_, ?_, ?_⟩
  · rw [hfe]
    exact buildClimateRows_length dates tmins tmaxs hmn hmx
  · intro hi
    rw [hfe]
    exact buildClimateRows_getD dates tmins tmaxs i hmn hmx hi
  · intro hi hnull
    rw [hfe, buildClimateRows_getD dates tmins tmaxs i hmn hmx hi, hnull]
    rfl

/-- Witness for C9: dates `[1, 2]` with `tmin = [some 5, none]`,
`tmax = [some 7, some 8]` — the second row's `tmin` is 0 and no row is
dropped. -/
theorem climate_null_temps_become_zero_witness :
    (fetch_climate_temp [1, 2] [some 5, none] [some 7, some 8]).length =
        ([1, 2] : List ℤ).length ∧
      ((fetch_climate_temp [1, 2] [some 5, none]
        [some 7, some 8]).getD 1 ⟨0, 0, 0⟩).tmin = 0 := by
  have h := climate_null_temps_become_zero [1, 2] [some 5, none]
    [some 7, some 8] 1 (by simp) rfl rfl
  exact ⟨h.1, h.2.2 (by norm_num) rfl⟩

/-- C10: `build_planning_chart` never mutates the caller's DataFrame: it
attaches the `daily_gdd` and `cumulative_gdd` columns to a private copy, so
the heap cell the caller's reference points at is unchanged by the call,
and the returned reference is a different cell. -/
theorem build_planning_chart_preserves_input :
    ∀ (h : Heap) (r : ℕ) (params : CropParams), r < h.length →
      ((build_planning_chart h r params).1)[r]? = h[r]? ∧
      (build_planning_chart h r params).2.1 ≠ r := by
  intro h r params hr
  have hne : h.length ≠ r := by omega
  constructor
  · show ((((h ++ [heapGet h r]).set h.length _).set h.length _))[r]? = h[r]?
    rw [List.getElem?_set_ne hne, List.getElem?_set_ne hne,
      List.getElem?_append_left hr]
  · show h.length ≠ r
    exact hne

/-- Witness for C10: a one-frame heap; after the call the caller's frame at
reference 0 still has no derived columns. -/
theorem build_planning_chart_preserves_input_witness :
    ((build_planning_chart [⟨[⟨1, 15, 25⟩], none, none⟩] 0
        ⟨10, 30, ⟨50, 150, 400, 600⟩⟩).1)[0]? =
      ([⟨[⟨1, 15, 25⟩], none, none⟩] : Heap)[0]? :=
  (build_planning_chart_preserves_input [⟨[⟨1, 15, 25⟩], none, none⟩] 0
    ⟨10, 30, ⟨50, 150, 400, 600⟩⟩ (by norm_num)).1

end GDD
